import Mathlib

/-!
Verification of the `messenger` package: a broker-agnostic publish/subscribe
layer (orchestrator `messenger` + Google Pub/Sub adapter `pubsubAdapter`).

The Go sources are shallowly embedded:
* `messenger.Dispatch` / `messenger.Subscribe` / `prefixQueue` / the
  `handleMessage` closure from `messenger.go`;
* `pubsubAdapter.Dispatch` / `Subscribe` / `topic` / `createTopicIfNotExists`
  / `subscription` / `createSubscriptionIfNotExists` from the adapter source;
* the JSON wire envelope `pubsubMessage` with its `encoding/json`
  marshalling, modelled by an executable encoder/decoder for the exact
  shape the adapter produces.

Effectful broker calls are modelled by an oracle (`Broker`) giving each
broker operation's outcome, and every function additionally returns the
list of broker operations it performed (ghost instrumentation used to state
"X is never invoked" properties).
-/

/-- Go `error` values that appear in the messenger package, compared with
`==` as Go does (`context.Canceled`, `ErrDifferentQueues`, the dynamic
errors built with `errors.New`, and opaque broker/transport errors). -/
inductive GoError where
  | contextCanceled
  | errDifferentQueues
  | errMissingProject
  | noHandlerFound (ident : String)
  | unmarshalError (body : String)
  | marshalError
  | brokerError (msg : String)
deriving DecidableEq, Repr

/-- The `adapterMessage` struct: the envelope the orchestrator hands to the
adapter (`Queue`, `Identifier`, `Body`). -/
structure adapterMessage where
  Queue : String
  Identifier : String
  Body : String
deriving DecidableEq, Repr

/-- The `pubsubHeaders` struct of the wire envelope; its Go field `Type`
carries the message identifier and serializes as JSON key `type`. -/
structure pubsubHeaders where
  type : String
deriving DecidableEq, Repr

/-- The `pubsubMessage` struct: the JSON wire envelope
`\x7b"headers":\x7b"type":...\x7d,"body":...\x7d`. -/
structure pubsubMessage where
  Headers : pubsubHeaders
  Body : String
deriving DecidableEq, Repr

/-- JSON string escaping for the two string fields of the envelope:
`"` and `\` are escaped with a backslash, other characters pass through
(the subset of `encoding/json` escaping exercised by the envelope). -/
def escapeList : List Char → List Char
  | [] => []
  | c :: cs =>
    if c = '"' || c = '\\' then '\\' :: c :: escapeList cs
    else c :: escapeList cs

/-- Parse a JSON string body up to (and consuming) the closing unescaped
quote; returns the unescaped content and the remaining input. -/
def parseQuoted : List Char → Option (List Char × List Char)
  | [] => none
  | '"' :: cs => some ([], cs)
  | '\\' :: [] => none
  | '\\' :: d :: ds =>
    match parseQuoted ds with
    | none => none
    | some (s, r) => some (d :: s, r)
  | c :: cs =>
    match parseQuoted cs with
    | none => none
    | some (s, r) => some (c :: s, r)

/-- Consume an expected literal prefix, returning the rest of the input. -/
def dropLit : List Char → List Char → Option (List Char)
  | [], rest => some rest
  | _ :: _, [] => none
  | p :: ps, c :: cs => if c = p then dropLit ps cs else none

/-- Literal opening of the wire envelope, up to the `type` value. -/
def headerLit : List Char := "\x7b\"headers\":\x7b\"type\":\"".data

/-- Literal between the `type` value and the `body` value. -/
def bodyLit : List Char := "\x7d,\"body\":\"".data

/-- Literal closing of the wire envelope. -/
def tailLit : List Char := "\x7d".data

/-- Character-level encoding of the wire envelope, in the exact field order
`json.Marshal` produces for `pubsubMessage`. -/
def encodeChars (ty body : List Char) : List Char :=
  headerLit ++ (escapeList ty ++ ('"' :: (bodyLit ++ (escapeList body ++ ('"' :: tailLit)))))

/-- Model of `json.Marshal` applied to a `pubsubMessage` (it cannot fail:
both fields are strings). -/
def encodePubsub (m : pubsubMessage) : String :=
  ⟨encodeChars m.Headers.type.data m.Body.data⟩

/-- Character-level decoder for the wire envelope. -/
def decodeChars (l : List Char) : Option pubsubMessage :=
  match dropLit headerLit l with
  | none => none
  | some r1 =>
    match parseQuoted r1 with
    | none => none
    | some (ty, r2) =>
      match dropLit bodyLit r2 with
      | none => none
      | some r3 =>
        match parseQuoted r3 with
        | none => none
        | some (bd, r4) =>
          if r4 = tailLit then some ⟨⟨⟨ty⟩⟩, ⟨bd⟩⟩ else none

/-- Model of `json.Unmarshal` of a received payload into a `pubsubMessage`:
`none` is a decode error (any payload not of the envelope shape). -/
def decodePubsub (s : String) : Option pubsubMessage :=
  decodeChars s.data

theorem parseQuoted_escape (s rest : List Char) :
    parseQuoted (escapeList s ++ '"' :: rest) = some (s, rest) := by
  induction s with
  | nil => simp [escapeList, parseQuoted]
  | cons c cs ih =>
    by_cases hc : c = '"' || c = '\\'
    · have hbs : ('\\' : Char) ≠ '"' := by decide
      simp only [escapeList, hc, if_true, List.cons_append]
      simp [parseQuoted, ih]
    · have h1 : c ≠ '"' := by
        intro h; exact absurd (by simp [h]) hc
      have h2 : c ≠ '\\' := by
        intro h; exact absurd (by simp [h]) hc
      simp only [escapeList, hc, if_false, List.cons_append]
      simp [parseQuoted, h1, h2, ih]

theorem dropLit_append (p rest : List Char) :
    dropLit p (p ++ rest) = some rest := by
  induction p with
  | nil => simp [dropLit]
  | cons c cs ih => simp [dropLit, ih]

theorem decodeChars_encodeChars (ty bd : List Char) :
    decodeChars (encodeChars ty bd) = some ⟨⟨⟨ty⟩⟩, ⟨bd⟩⟩ := by
  unfold decodeChars encodeChars
  simp only [dropLit_append, parseQuoted_escape]
  simp

theorem decodePubsub_encodePubsub (m : pubsubMessage) :
    decodePubsub (encodePubsub m) = some m := by
  show decodeChars (encodeChars m.Headers.type.data m.Body.data) = some m
  rw [decodeChars_encodeChars]

/-! ## The broker oracle and the pubsub adapter

The Google Pub/Sub client is external; its calls are modelled by an oracle
(`Broker`) returning each operation's outcome, and each adapter function
also returns the list of broker operations it performed. -/

/-- One call made to the broker service (ghost trace of the adapter). -/
inductive BrokerOp where
  | topicExistsCheck (t : String)
  | createTopic (t : String)
  | subExistsCheck (s : String)
  | createSub (s : String) (topic : String)
  | updateSub (s : String) (deadLetterTopic : String)
  | publish (t : String) (data : String)
deriving DecidableEq, Repr

/-- The broker resource names an operation refers to. -/
def BrokerOp.names : BrokerOp → List String
  | .topicExistsCheck t => [t]
  | .createTopic t => [t]
  | .subExistsCheck s => [s]
  | .createSub s t => [s, t]
  | .updateSub s d => [s, d]
  | .publish t _ => [t]

/-- Oracle for the outcomes of the Pub/Sub client calls the adapter makes
(`topic.Exists`, `client.CreateTopic`, `sub.Exists`,
`client.CreateSubscription`, `sub.Update`, `topic.Publish` + `res.Get`).
`none` / `.ok` is success. -/
structure Broker where
  topicExists : String → Except GoError Bool
  createTopic : String → Option GoError
  subExists : String → Except GoError Bool
  createSub : String → Option GoError
  updateSub : String → String → Option GoError
  publishRes : String → String → Option GoError

/-- Result of `pubsubAdapter.topic`: the resolved topic id (or error), the
updated memo map `p.topics` (modelled as its list of keys), and the broker
operations performed. -/
structure TopicResult where
  res : Except GoError String
  memo : List String
  ops : List BrokerOp
deriving Repr

/-- The `createTopicIfNotExists` method: check existence, create only when
the topic does not exist (returning the existence-check error as is). -/
def createTopicIfNotExists (b : Broker) (t : String) : Option GoError × List BrokerOp :=
  match b.topicExists t with
  | .error e => (some e, [.topicExistsCheck t])
  | .ok true => (none, [.topicExistsCheck t])
  | .ok false => (b.createTopic t, [.topicExistsCheck t, .createTopic t])

/-- The `pubsubAdapter.topic` method: return the memoized topic when
present; otherwise obtain a topic handle, create the topic when `create`
is set, and memoize the handle. -/
def topic (b : Broker) (memo : List String) (queue : String) (create : Bool) : TopicResult :=
  if queue ∈ memo then ⟨.ok queue, memo, []⟩
  else if create then
    match createTopicIfNotExists b queue with
    | (some e, ops) => ⟨.error e, memo, ops⟩
    | (none, ops) => ⟨.ok queue, memo ++ [queue], ops⟩
  else ⟨.ok queue, memo ++ [queue], []⟩

/-- Result of `pubsubAdapter.Dispatch`: the returned error (if any), the
updated memo map, and the broker operations performed. -/
structure DispatchRun where
  err : Option GoError
  memo : List String
  ops : List BrokerOp
deriving Repr

/-- The `pubsubAdapter.Dispatch` method: wrap the identifier and body into
the wire envelope, resolve the topic with `create = false` (the method
assumes the topic already exists), publish and wait for the result. -/
def pubsubDispatch (b : Broker) (memo : List String) (msg : adapterMessage) : DispatchRun :=
  let data := encodePubsub ⟨⟨msg.Identifier⟩, msg.Body⟩
  let t := topic b memo msg.Queue false
  match t.res with
  | .error e => ⟨some e, t.memo, t.ops⟩
  | .ok top => ⟨b.publishRes top data, t.memo, t.ops ++ [.publish top data]⟩

/-- The `createSubscriptionIfNotExists` method: check existence, create
only when the subscription does not exist. -/
def createSubscriptionIfNotExists (b : Broker) (s topicName : String) :
    Option GoError × List BrokerOp :=
  match b.subExists s with
  | .error e => (some e, [.subExistsCheck s])
  | .ok true => (none, [.subExistsCheck s])
  | .ok false => (b.createSub s, [.subExistsCheck s, .createSub s topicName])

/-- Result of `pubsubAdapter.subscription`: the resolved
(subscription id, topic id) pair or error, the updated memo map, and the
broker operations performed. -/
structure SubResult where
  res : Except GoError (String × String)
  memo : List String
  ops : List BrokerOp
deriving Repr

/-- The behavior of `pubsubAdapter.subscription` when called with an empty
dead-letter topic name: resolve/create the topic, then resolve the
subscription and create it when absent (NOTE: exactly as in the source, the
error returned by `createSubscriptionIfNotExists` is discarded). In the
source this is the `deadLetterTopic == ""` path of `subscription`, which is
also the only shape of its recursive self-call
(`p.subscription(deadLetterTopic, deadLetterTopic, "")`), so the depth-one
recursion is unfolded through this definition. -/
def subscriptionNoDL (b : Broker) (memo0 : List String) (subName topicName : String) :
    SubResult :=
  match topic b memo0 topicName true with
  | ⟨.error e, memo1, ops1⟩ => ⟨.error e, memo1, ops1⟩
  | ⟨.ok top, memo1, ops1⟩ =>
    let c := createSubscriptionIfNotExists b subName top
    ⟨.ok (subName, top), memo1, ops1 ++ c.2⟩

/-- The `pubsubAdapter.subscription` method: resolve/create the topic,
resolve the subscription and create it when absent (NOTE: exactly as in the
source, the error returned by `createSubscriptionIfNotExists` is discarded),
then, when a dead-letter topic is configured, recursively provision the
dead-letter topic and its subscription (the recursive call passes an empty
dead-letter name, hence `subscriptionNoDL`) and unconditionally update the
primary subscription's dead-letter and retry policies. -/
def subscription (b : Broker) (memo0 : List String) (subName topicName deadLetterTopic : String) :
    SubResult :=
  match topic b memo0 topicName true with
  | ⟨.error e, memo1, ops1⟩ => ⟨.error e, memo1, ops1⟩
  | ⟨.ok top, memo1, ops1⟩ =>
    let c := createSubscriptionIfNotExists b subName top
    let ops2 := ops1 ++ c.2
    if deadLetterTopic = "" then ⟨.ok (subName, top), memo1, ops2⟩
    else
      match subscriptionNoDL b memo1 deadLetterTopic deadLetterTopic with
      | ⟨.error e, memo2, ops3⟩ => ⟨.error e, memo2, ops2 ++ ops3⟩
      | ⟨.ok (_, dlTop), memo2, ops3⟩ =>
        match b.updateSub subName dlTop with
        | some e => ⟨.error e, memo2, ops2 ++ ops3 ++ [.updateSub subName dlTop]⟩
        | none => ⟨.ok (subName, top), memo2, ops2 ++ ops3 ++ [.updateSub subName dlTop]⟩

/-- Ack or Nack decision for one received message. -/
inductive AckResult where
  | ack
  | nack
deriving DecidableEq, Repr

/-- The per-message callback passed to `sub.Receive`: decode the wire
envelope (Nack on failure), invoke the handle callback with the identifier
and raw body (Nack on error), Ack on success. -/
def receiveCallback (queue : String) (h : adapterMessage → Option GoError) (data : String) :
    AckResult :=
  match decodePubsub data with
  | none => .nack
  | some m =>
    match h ⟨queue, m.Headers.type, m.Body⟩ with
    | some _ => .nack
    | none => .ack

/-- Result of `pubsubAdapter.Subscribe`: the returned error (if any), the
updated memo map, the broker operations performed during provisioning, and
the Ack/Nack decision for each message delivered by the receive loop. -/
structure ReceiveRun where
  err : Option GoError
  memo : List String
  ops : List BrokerOp
  acks : List AckResult

/-- The `pubsubAdapter.Subscribe` method: provision via
`subscription queue queue deadLetterTopic`; on provisioning error return
it; otherwise run the receive loop over the delivered payloads (`incoming`)
and return the loop's exit value (`receiveErr`, an oracle: `none` on normal
broker-driven termination, the context's error on cancellation, or a
transport error). -/
def pubsubSubscribe (b : Broker) (memo : List String) (deadLetterTopic queue : String)
    (h : adapterMessage → Option GoError) (incoming : List String)
    (receiveErr : Option GoError) : ReceiveRun :=
  match subscription b memo queue queue deadLetterTopic with
  | ⟨.error e, memo1, ops⟩ => ⟨some e, memo1, ops, []⟩
  | ⟨.ok _, memo1, ops⟩ => ⟨receiveErr, memo1, ops, incoming.map (receiveCallback queue h)⟩

/-! ## The orchestrator (`messenger`)

Go `Message` is an interface; domain messages are modelled by an arbitrary
type `Msg` together with the interface methods (`MessageOps`).
`json.Marshal` / `json.Unmarshal` of domain messages are external to the
package and appear as the `marshal` / `unmarshal` functions. -/

/-- The `Message` interface methods plus `json.Marshal` for a domain
message type `Msg` (`marshal` returns `none` on a marshalling error). -/
structure MessageOps (Msg : Type) where
  identifier : Msg → String
  queue : Msg → String
  marshal : Msg → Option String

/-- A `MessageHandler`: `protoIdent` / `protoQueue` are the identifier and
queue of the prototype returned by `Message()`, `unmarshal` is
`json.Unmarshal` into that freshly allocated prototype (`none` on a decode
error), and `handle` is `Handle` (`none` on success). -/
structure MessageHandler (Msg : Type) where
  protoIdent : String
  protoQueue : String
  unmarshal : String → Option Msg
  handle : Msg → Option GoError

/-- The relevant `messenger.Config` fields (`RestartTimeout` is a
`time.Duration`, modelled in nanoseconds; `0` disables restarts). -/
structure MessengerConfig where
  Environment : String
  RestartTimeout : Nat
deriving DecidableEq, Repr

/-- The `prefixQueue` method: prefix the queue name with the environment. -/
def prefixQueue (env queue : String) : String :=
  env ++ "." ++ queue

/-- The queue-validation loop at the top of `messenger.Subscribe`: starting
from the zero value `""`, take each handler's queue when the accumulator is
still `""`, and fail with `ErrDifferentQueues` when a handler's queue
differs from the non-empty accumulator. -/
def subscribeQueueLoop {Msg : Type} : List (MessageHandler Msg) → String → Except GoError String
  | [], queue => .ok queue
  | handler :: rest, queue =>
    if queue = "" then subscribeQueueLoop rest handler.protoQueue
    else if queue ≠ handler.protoQueue then .error .errDifferentQueues
    else subscribeQueueLoop rest queue

/-- The `handleMessage` closure built by `messenger.Subscribe`: scan the
handler list for the first handler whose prototype identifier equals the
envelope's identifier, unmarshal the body into its prototype (returning the
decode error on failure) and invoke `Handle`; when no handler matches,
return the "no handler found" error. The second component is a ghost trace
of the `Handle` invocations (which handler, with which decoded message). -/
def handleMessage {Msg : Type} :
    List (MessageHandler Msg) → adapterMessage → Option GoError × List (MessageHandler Msg × Msg)
  | [], a => (some (.noHandlerFound a.Identifier), [])
  | handler :: rest, a =>
    if a.Identifier = handler.protoIdent then
      match handler.unmarshal a.Body with
      | none => (some (.unmarshalError a.Body), [])
      | some msg => (handler.handle msg, [(handler, msg)])
    else handleMessage rest a

/-- What one call to `messenger.Subscribe` does after the adapter call
returns (the recursive restart call is represented by the `restart`
constructor: the code sleeps `RestartTimeout` and then re-invokes
`Subscribe` with the same handler list). -/
inductive SubscribeStep (Msg : Type) where
  | retNil
  | retErr (e : GoError)
  | restart (delay : Nat) (handlers : List (MessageHandler Msg))

/-- Result of one call to `messenger.Subscribe`: the control-flow outcome,
the queues on which `adapter.Subscribe` was invoked, and the broker
operations the adapter performed. -/
structure SubscribeResult (Msg : Type) where
  step : SubscribeStep Msg
  adapterCalls : List String
  brokerOps : List BrokerOp

/-- One call of `messenger.Subscribe` (the recursive restart is returned as
a `SubscribeStep.restart`): validate that all handlers share one queue,
prefix the queue with the environment, call `adapter.Subscribe` (modelled
by the oracle `adapterSub`, returning the error and the broker operations
performed), and classify the returned error exactly as the source does
(`err == nil || err == ctx.Err()` → return nil; `RestartTimeout == 0` →
return the error; otherwise sleep and re-subscribe with the same
handlers). `ctxErr` is the value of `ctx.Err()` when the adapter call
returns. -/
def messengerSubscribe {Msg : Type} (cfg : MessengerConfig)
    (adapterSub : String → Option GoError × List BrokerOp)
    (ctxErr : Option GoError) (hs : List (MessageHandler Msg)) : SubscribeResult Msg :=
  match subscribeQueueLoop hs "" with
  | .error e => ⟨.retErr e, [], []⟩
  | .ok q0 =>
    let queue := prefixQueue cfg.Environment q0
    let r := adapterSub queue
    match r.1 with
    | none => ⟨.retNil, [queue], r.2⟩
    | some e =>
      if some e = ctxErr then ⟨.retNil, [queue], r.2⟩
      else if cfg.RestartTimeout = 0 then ⟨.retErr e, [queue], r.2⟩
      else ⟨.restart cfg.RestartTimeout hs, [queue], r.2⟩

/-- The envelope-construction part of `messenger.Dispatch`: marshal the
message (returning the marshal error on failure) and build the
`adapterMessage` with the environment-prefixed queue. -/
def dispatchEnvelope {Msg : Type} (cfg : MessengerConfig) (ops : MessageOps Msg) (m : Msg) :
    Except GoError adapterMessage :=
  match ops.marshal m with
  | none => .error .marshalError
  | some body => .ok ⟨prefixQueue cfg.Environment (ops.queue m), ops.identifier m, body⟩

/-- The full `messenger.Dispatch`: build the envelope and delegate to
`pubsubAdapter.Dispatch`, returning its error. -/
def messengerDispatch {Msg : Type} (cfg : MessengerConfig) (ops : MessageOps Msg)
    (b : Broker) (memo : List String) (m : Msg) : DispatchRun :=
  match dispatchEnvelope cfg ops m with
  | .error e => ⟨some e, memo, []⟩
  | .ok am => pubsubDispatch b memo am

/-- End-to-end pipeline for the round-trip property: `messenger.Dispatch`
builds the envelope, the adapter encodes it onto the wire, the receive side
decodes the wire payload and feeds the resulting `adapterMessage` (with the
subscriber's queue) to the `handleMessage` closure. `none` means the
pipeline stopped before any handler ran (marshal or wire-decode failure). -/
def dispatchDeliver {Msg : Type} (cfg : MessengerConfig) (ops : MessageOps Msg)
    (hs : List (MessageHandler Msg)) (m : Msg) :
    Option (Option GoError × List (MessageHandler Msg × Msg)) :=
  match dispatchEnvelope cfg ops m with
  | .error _ => none
  | .ok am =>
    match decodePubsub (encodePubsub ⟨⟨am.Identifier⟩, am.Body⟩) with
    | none => none
    | some pm => some (handleMessage hs ⟨am.Queue, pm.Headers.type, pm.Body⟩)

/-! ## Concrete instances used by witnesses and counterexamples -/

/-- A messenger configuration with environment `dev` and restarts
disabled. -/
def cfgDev : MessengerConfig := ⟨"dev", 0⟩

/-- A messenger configuration with environment `dev` and a restart timeout
of `1000`. -/
def cfgDevRestart : MessengerConfig := ⟨"dev", 1000⟩

/-- An adapter whose `Subscribe` returns `nil` and performs no broker
operations. -/
def adapterSubNone : String → Option GoError × List BrokerOp := fun _ => (none, [])

/-- An adapter whose `Subscribe` returns an unexpected broker error. -/
def adapterSubBoom : String → Option GoError × List BrokerOp :=
  fun _ => (some (.brokerError "boom"), [])

/-- A handler over trivial messages, used to exercise the queue-validation
and routing logic. -/
def handlerU (ident q : String) : MessageHandler Unit :=
  ⟨ident, q, fun _ => some (), fun _ => none⟩

/-- A broker on which every existence check answers `false` and every
operation succeeds (a fresh project). -/
def brokerAllOk : Broker :=
  ⟨fun _ => .ok false, fun _ => none, fun _ => .ok false, fun _ => none,
   fun _ _ => none, fun _ _ => none⟩

/-- A broker on which the topic exists, the subscription does not, and
`CreateSubscription` fails. -/
def brokerCreateSubFails : Broker :=
  ⟨fun _ => .ok true, fun _ => none, fun _ => .ok false,
   fun _ => some (.brokerError "create failed"), fun _ _ => none, fun _ _ => none⟩

/-- Message operations for a string-typed domain message with identifier
and queue `webhook`, whose JSON body is the string itself. -/
def opsWebhook : MessageOps String :=
  ⟨fun _ => "webhook", fun _ => "webhook", fun s => some s⟩

/-- The handler matching `opsWebhook`. -/
def handlerWebhook : MessageHandler String :=
  ⟨"webhook", "webhook", fun s => some s, fun _ => none⟩

/-- Message operations for a trivial message with identifier `order` and
queue `orders`. -/
def opsOrders : MessageOps Unit :=
  ⟨fun _ => "order", fun _ => "orders", fun _ => some "b"⟩

/-! ## Helper lemmas -/

theorem string_append_empty (s : String) : s ++ "" = s := by
  cases s with
  | mk d => show String.mk (d ++ []) = String.mk d
            rw [List.append_nil]

/-- Resolving a topic without `create` never errors, never talks to the
broker, and memoizes the queue. -/
theorem topic_false (b : Broker) (memo : List String) (q : String) :
    topic b memo q false =
      ⟨.ok q, if q ∈ memo then memo else memo ++ [q], []⟩ := by
  unfold topic
  by_cases h : q ∈ memo <;> simp [h]

/-- Every broker operation performed by `pubsubAdapter.topic` refers only
to the queue being resolved. -/
theorem topic_ops_names (b : Broker) (memo : List String) (q : String) (c : Bool) :
    ∀ op ∈ (topic b memo q c).ops, ∀ n ∈ BrokerOp.names op, n = q := by
  intro op hop n hn
  unfold topic at hop
  by_cases hmem : q ∈ memo
  · simp [hmem] at hop
  · cases c with
    | false => simp [hmem] at hop
    | true =>
      simp only [hmem, if_false, if_true] at hop
      unfold createTopicIfNotExists at hop
      rcases hte : b.topicExists q with e | tf
      · simp [hte] at hop
        simp [hop, BrokerOp.names] at hn
        exact hn
      · cases tf with
        | true =>
          simp [hte] at hop
          simp [hop, BrokerOp.names] at hn
          exact hn
        | false =>
          rcases hct : b.createTopic q with _ | e <;>
            · simp [hte, hct] at hop
              rcases hop with h | h <;> simp [h, BrokerOp.names] at hn <;> exact hn

/-- Every broker operation performed by `createSubscriptionIfNotExists`
for subscription `q` on topic `q` refers only to `q`. -/
theorem createSubscriptionIfNotExists_ops_names (b : Broker) (q : String) :
    ∀ op ∈ (createSubscriptionIfNotExists b q q).2, ∀ n ∈ BrokerOp.names op, n = q := by
  intro op hop n hn
  unfold createSubscriptionIfNotExists at hop
  rcases hse : b.subExists q with e | tf
  · simp [hse] at hop
    simp [hop, BrokerOp.names] at hn
    exact hn
  · cases tf with
    | true =>
      simp [hse] at hop
      simp [hop, BrokerOp.names] at hn
      exact hn
    | false =>
      simp [hse] at hop
      rcases hop with h | h <;> simp [h, BrokerOp.names] at hn <;> exact hn

/-- When `pubsubAdapter.topic` succeeds, the topic handle it returns is
named by the queue it was asked to resolve. -/
theorem topic_res_ok (b : Broker) (memo : List String) (q : String) (c : Bool) :
    ∀ {top : String}, (topic b memo q c).res = .ok top → top = q := by
  intro top h
  unfold topic at h
  by_cases hmem : q ∈ memo
  · simp [hmem] at h; exact h.symm
  · cases c with
    | false => simp [hmem] at h; exact h.symm
    | true =>
      rcases hct : createTopicIfNotExists b q with ⟨e, ops⟩
      cases e with
      | none => simp [hmem, hct] at h; exact h.symm
      | some e2 => simp [hmem, hct] at h

/-- Without a dead-letter topic, `subscription` performs exactly the topic
resolution operations, possibly followed by the subscription
existence-check/creation operations. -/
theorem subscription_noDL_ops (b : Broker) (memo : List String) (q : String) :
    (subscription b memo q q "").ops = (topic b memo q true).ops ∨
    (subscription b memo q q "").ops =
      (topic b memo q true).ops ++ (createSubscriptionIfNotExists b q q).2 := by
  unfold subscription
  rcases ht : topic b memo q true with ⟨res, memo1, ops1⟩
  rcases res with e | top
  · left; rfl
  · have htop : top = q := topic_res_ok b memo q true (by rw [ht])
    subst htop
    right; simp

/-- First-match behavior of the `handleMessage` closure: with no earlier
handler matching, the first matching handler receives the decoded
message. -/
theorem handleMessage_first_match {Msg : Type} (pre post : List (MessageHandler Msg))
    (hstar : MessageHandler Msg) (a : adapterMessage) (m : Msg)
    (hpre : ∀ g ∈ pre, g.protoIdent ≠ a.Identifier)
    (hid : a.Identifier = hstar.protoIdent)
    (hun : hstar.unmarshal a.Body = some m) :
    handleMessage (pre ++ hstar :: post) a = (hstar.handle m, [(hstar, m)]) := by
  induction pre with
  | nil => simp [handleMessage, hid, hun]
  | cons g rest ih =>
    have hg : g.protoIdent ≠ a.Identifier := hpre g (by simp)
    have hne : ¬(a.Identifier = g.protoIdent) := fun h => hg h.symm
    simp only [List.cons_append, handleMessage, hne, if_false]
    exact ih (fun g2 hg2 => hpre g2 (by simp [hg2]))

/-! ## Claims -/

/-- Claim C1 (confirmed). Round-trip: for every `Message` whose JSON
encoding succeeds, dispatching it through `Messenger.Dispatch` and then
delivering the resulting envelope through the `Subscribe` dispatch closure
to the (first) handler whose prototype has the same identifier yields a
decoded message equal to the original, given that unmarshalling the
marshalled body recovers the message (the "modulo JSON-representable
fields" clause). -/
theorem roundTrip_dispatch_deliver {Msg : Type} (cfg : MessengerConfig)
    (ops : MessageOps Msg) (pre post : List (MessageHandler Msg))
    (hstar : MessageHandler Msg) (m : Msg) (body : String)
    (hmarshal : ops.marshal m = some body)
    (hid : hstar.protoIdent = ops.identifier m)
    (hpre : ∀ g ∈ pre, g.protoIdent ≠ ops.identifier m)
    (hun : hstar.unmarshal body = some m) :
    dispatchDeliver cfg ops (pre ++ hstar :: post) m = some (hstar.handle m, [(hstar, m)]) := by
  unfold dispatchDeliver
  simp only [dispatchEnvelope, hmarshal]
  rw [decodePubsub_encodePubsub ⟨⟨ops.identifier m⟩, body⟩]
  exact congrArg some (handleMessage_first_match pre post hstar
    ⟨prefixQueue cfg.Environment (ops.queue m), ops.identifier m, body⟩ m hpre hid.symm hun)

/-- Witness for C1 at the spec's scenario: identifier `webhook`, a single
matching handler, body the string itself. -/
theorem roundTrip_dispatch_deliver_witness :
    dispatchDeliver cfgDev opsWebhook [handlerWebhook] "order.created" =
      some (none, [(handlerWebhook, "order.created")]) :=
  roundTrip_dispatch_deliver cfgDev opsWebhook [] [] handlerWebhook
    "order.created" "order.created" rfl rfl (by intro g hg; simp at hg) rfl

/-- Claim C2 (corrected): as stated it requires only
`h1.Queue() ≠ h2.Queue()`, but when the first handler's queue is the empty
string the validation loop treats it as the unset zero value and overwrites
it, so `Subscribe` proceeds without error. This counterexample runs
`Subscribe(h1, h2)` with `h1.Queue() = ""`, `h2.Queue() = "x"`: the two
queues differ, yet the call returns nil instead of `ErrDifferentQueues`. -/
theorem subscribe_mixed_queues_counterexample :
    (handlerU "a" "").protoQueue ≠ (handlerU "b" "x").protoQueue ∧
    (messengerSubscribe cfgDev adapterSubNone none
        [handlerU "a" "", handlerU "b" "x"]).step = .retNil :=
  ⟨by decide, rfl⟩

/-- Claim C2 (amended): for every pair of handlers whose queues differ,
with the first handler's queue non-empty, `Messenger.Subscribe(h1, h2)`
returns `ErrDifferentQueues`, invokes the adapter's `Subscribe` on no
queue, and performs no broker operation. -/
theorem subscribe_mixed_queues_rejected {Msg : Type} (cfg : MessengerConfig)
    (aSub : String → Option GoError × List BrokerOp) (ctxErr : Option GoError)
    (h1 h2 : MessageHandler Msg)
    (hne0 : h1.protoQueue ≠ "")
    (hne : h1.protoQueue ≠ h2.protoQueue) :
    messengerSubscribe cfg aSub ctxErr [h1, h2] = ⟨.retErr .errDifferentQueues, [], []⟩ := by
  unfold messengerSubscribe
  simp [subscribeQueueLoop, hne0, hne]

/-- Witness for the amended C2 at the spec's mixed-queue scenario
(`Queue() = "x"` versus `Queue() = "y"`). -/
theorem subscribe_mixed_queues_rejected_witness :
    messengerSubscribe cfgDev adapterSubNone none [handlerU "a" "x", handlerU "b" "y"] =
      ⟨.retErr .errDifferentQueues, [], []⟩ :=
  subscribe_mixed_queues_rejected cfgDev adapterSubNone none
    (handlerU "a" "x") (handlerU "b" "y") (by decide) (by decide)

/-- Claim C3 (corrected): the claim says `Dispatch`/`Publish` creates the
topic when it does not exist before publishing. In the source,
`pubsubAdapter.Dispatch` resolves the topic with `create = false` and never
creates (or even existence-checks) it. Here the broker reports the topic as
absent, yet the dispatch trace is a single publish operation with no
topic-creation operation before it. -/
theorem pubsubDispatch_no_create_counterexample :
    brokerAllOk.topicExists "dev.orders" = .ok false ∧
    pubsubDispatch brokerAllOk [] ⟨"dev.orders", "order", "payload"⟩ =
      ⟨none, ["dev.orders"],
       [.publish "dev.orders" (encodePubsub ⟨⟨"order"⟩, "payload"⟩)]⟩ :=
  ⟨rfl, rfl⟩

/-- Claim C3 (amended): for every call to `Dispatch`/`Publish`, the adapter
resolves the Topic for the queue lazily and memoized, performs no
topic-creation (nor existence-check) operation, and publishes the envelope
to the topic named by the queue; any publish error is returned. -/
theorem pubsubDispatch_lazy_no_create (b : Broker) (memo : List String)
    (msg : adapterMessage) :
    (pubsubDispatch b memo msg).ops =
      [.publish msg.Queue (encodePubsub ⟨⟨msg.Identifier⟩, msg.Body⟩)] ∧
    (pubsubDispatch b memo msg).memo =
      (if msg.Queue ∈ memo then memo else memo ++ [msg.Queue]) ∧
    (pubsubDispatch b memo msg).err =
      b.publishRes msg.Queue (encodePubsub ⟨⟨msg.Identifier⟩, msg.Body⟩) := by
  unfold pubsubDispatch
  rw [topic_false]
  simp

/-- Claim C4 (confirmed). Clean cancellation: on every call to
`Messenger.Subscribe` that reaches the adapter, if the adapter's
`Subscribe` returns nil or an error equal to the cancellation context's own
error, then `Messenger.Subscribe` returns nil rather than that error. -/
theorem subscribe_clean_cancellation {Msg : Type} (cfg : MessengerConfig)
    (aSub : String → Option GoError × List BrokerOp) (ctxErr : Option GoError)
    (hs : List (MessageHandler Msg)) (q0 : String)
    (hval : subscribeQueueLoop hs "" = .ok q0)
    (hclean : (aSub (prefixQueue cfg.Environment q0)).1 = none ∨
              (aSub (prefixQueue cfg.Environment q0)).1 = ctxErr) :
    (messengerSubscribe cfg aSub ctxErr hs).step = .retNil := by
  unfold messengerSubscribe
  rw [hval]
  rcases herr : (aSub (prefixQueue cfg.Environment q0)).1 with _ | e
  · simp [herr]
  · rw [herr] at hclean
    rcases hclean with h | h
    · exact absurd h (by simp)
    · subst h
      simp [herr]

/-- Witness for C4: the adapter returns the cancellation context's error
(`context.Canceled`), and `Subscribe` reports nil. -/
theorem subscribe_clean_cancellation_witness :
    (messengerSubscribe cfgDev (fun _ => (some .contextCanceled, []))
        (some .contextCanceled) [handlerU "a" "x"]).step = .retNil :=
  subscribe_clean_cancellation cfgDev (fun _ => (some .contextCanceled, []))
    (some .contextCanceled) [handlerU "a" "x"] "x" rfl (Or.inr rfl)

/-- Claim C5 (confirmed). Restart behavior: when the adapter returns a
non-nil error different from the cancellation context's error, `Subscribe`
returns that error as fatal when `RestartTimeout` is zero; otherwise it
sleeps for `RestartTimeout` and re-invokes itself with the same handler
set (the `SubscribeStep.restart` outcome). -/
theorem subscribe_restart_behavior {Msg : Type} (cfg : MessengerConfig)
    (aSub : String → Option GoError × List BrokerOp) (ctxErr : Option GoError)
    (hs : List (MessageHandler Msg)) (q0 : String) (e : GoError)
    (hval : subscribeQueueLoop hs "" = .ok q0)
    (herr : (aSub (prefixQueue cfg.Environment q0)).1 = some e)
    (hne : some e ≠ ctxErr) :
    (cfg.RestartTimeout = 0 → (messengerSubscribe cfg aSub ctxErr hs).step = .retErr e) ∧
    (cfg.RestartTimeout ≠ 0 →
      (messengerSubscribe cfg aSub ctxErr hs).step = .restart cfg.RestartTimeout hs) := by
  constructor <;> intro ht <;>
    · unfold messengerSubscribe
      rw [hval]
      simp [herr, hne, ht]

/-- Witness for C5: an unexpected broker error with a restart timeout of
`1000` produces a restart with the same single-handler set. -/
theorem subscribe_restart_behavior_witness :
    (messengerSubscribe cfgDevRestart adapterSubBoom none [handlerU "a" "x"]).step =
      .restart 1000 [handlerU "a" "x"] :=
  (subscribe_restart_behavior cfgDevRestart adapterSubBoom none [handlerU "a" "x"]
    "x" (.brokerError "boom") rfl rfl (by simp)).2 (by decide)

/-- Claim C6 (confirmed). Routing correctness: the dispatch closure invokes
`Handle` at most once, only on a registered handler whose prototype
identifier equals the envelope's identifier; when no registered handler
matches, it returns the "no handler found" error and invokes no handler. -/
theorem handleMessage_routing {Msg : Type} (hs : List (MessageHandler Msg))
    (a : adapterMessage) :
    (handleMessage hs a).2.length ≤ 1 ∧
    (∀ p ∈ (handleMessage hs a).2, p.1 ∈ hs ∧ p.1.protoIdent = a.Identifier) ∧
    ((∀ g ∈ hs, g.protoIdent ≠ a.Identifier) →
      handleMessage hs a = (some (.noHandlerFound a.Identifier), [])) := by
  induction hs with
  | nil => simp [handleMessage]
  | cons handler rest ih =>
    by_cases hmatch : a.Identifier = handler.protoIdent
    · rcases hum : handler.unmarshal a.Body with _ | msg
      · refine ⟨?_, ?_, ?_⟩
        · simp [handleMessage, hmatch, hum]
        · simp [handleMessage, hmatch, hum]
        · intro hnone
          exact absurd hmatch.symm (hnone handler (by simp))
      · refine ⟨?_, ?_, ?_⟩
        · simp [handleMessage, hmatch, hum]
        · intro p hp
          simp [handleMessage, hmatch, hum] at hp
          simp [hp, hmatch.symm]
        · intro hnone
          exact absurd hmatch.symm (hnone handler (by simp))
    · refine ⟨?_, ?_, ?_⟩
      · simpa [handleMessage, hmatch] using ih.1
      · intro p hp
        simp only [handleMessage, hmatch, if_false] at hp
        have := ih.2.1 p hp
        exact ⟨by simp [this.1], this.2⟩
      · intro hnone
        simp only [handleMessage, hmatch, if_false]
        exact ih.2.2 (fun g hg => hnone g (by simp [hg]))

/-- Witness for C6 at the spec's routing scenario: handlers for `A` and
`B`, an envelope with identifier `C`: no handler runs and the closure
fails with "no handler found". -/
theorem handleMessage_routing_witness :
    handleMessage [handlerU "A" "q", handlerU "B" "q"] ⟨"dev.q", "C", "b"⟩ =
      (some (.noHandlerFound "C"), []) :=
  (handleMessage_routing [handlerU "A" "q", handlerU "B" "q"] ⟨"dev.q", "C", "b"⟩).2.2
    (by intro g hg
        simp [handlerU] at hg
        rcases hg with h | h <;> subst h <;> decide)

/-- Claim C7 (code_bug). Provisioning errors surfaced: the claim (and the
spec) say every provisioning error is returned to the caller of
`Subscribe`, but the source discards the value returned by
`createSubscriptionIfNotExists` inside `subscription`. At this failing
input the topic exists, the subscription does not, and the broker's
`CreateSubscription` fails; the creation is attempted (the trace ends with
the `createSub` operation), yet `pubsubAdapter.Subscribe` proceeds into the
receive loop and returns nil. -/
theorem pubsubSubscribe_createSub_error_discarded :
    brokerCreateSubFails.createSub "dev.q" = some (.brokerError "create failed") ∧
    brokerCreateSubFails.subExists "dev.q" = .ok false ∧
    pubsubSubscribe brokerCreateSubFails [] "" "dev.q" (fun _ => none) [] none =
      ⟨none, ["dev.q"],
       [.topicExistsCheck "dev.q", .subExistsCheck "dev.q", .createSub "dev.q" "dev.q"],
       []⟩ :=
  ⟨rfl, rfl, rfl⟩

/-- Claim C8 (confirmed). Ack/Nack protocol: a delivered message is
negatively acknowledged exactly when envelope decoding fails or the
dispatch callback returns an error, positively acknowledged exactly when
the callback succeeds, and the two outcomes are mutually exclusive. -/
theorem receiveCallback_ack_nack (queue : String) (h : adapterMessage → Option GoError)
    (data : String) :
    (receiveCallback queue h data = .nack ↔
      decodePubsub data = none ∨
      ∃ m, decodePubsub data = some m ∧ h ⟨queue, m.Headers.type, m.Body⟩ ≠ none) ∧
    (receiveCallback queue h data = .ack ↔
      ∃ m, decodePubsub data = some m ∧ h ⟨queue, m.Headers.type, m.Body⟩ = none) ∧
    ¬(receiveCallback queue h data = .ack ∧ receiveCallback queue h data = .nack) := by
  rcases hd : decodePubsub data with _ | m
  · simp [receiveCallback, hd]
  · rcases hh : h ⟨queue, m.Headers.type, m.Body⟩ with _ | e <;>
      simp [receiveCallback, hd, hh]

/-- Once validation passes, `messenger.Subscribe` invokes the adapter's
`Subscribe` on exactly the environment-prefixed validated queue, on every
control path. -/
theorem messengerSubscribe_adapterCalls {Msg : Type} (cfg : MessengerConfig)
    (aSub : String → Option GoError × List BrokerOp) (ctxErr : Option GoError)
    (hs : List (MessageHandler Msg)) (q0 : String)
    (hval : subscribeQueueLoop hs "" = .ok q0) :
    (messengerSubscribe cfg aSub ctxErr hs).adapterCalls =
      [prefixQueue cfg.Environment q0] := by
  unfold messengerSubscribe
  rw [hval]
  rcases herr : (aSub (prefixQueue cfg.Environment q0)).1 with _ | e
  · simp [herr]
  · simp only [herr]
    by_cases hc : some e = ctxErr
    · simp [hc]
    · by_cases hr : cfg.RestartTimeout = 0 <;> simp [hc, hr]

/-- Claim C9 (confirmed). Namespacing: the orchestrator resolves every
logical queue name to `Environment ++ "." ++ queue` before it reaches the
adapter — on `Dispatch` the envelope's queue is the prefixed one, and on
`Subscribe` the adapter is invoked on exactly the prefixed validated
queue — while the adapter itself passes the queue name through unchanged:
`pubsubAdapter.Dispatch` publishes to the topic named by the queue it was
given, and the provisioning operations of `subscription` refer only to
that exact name. -/
theorem messenger_namespacing {Msg : Type} (cfg : MessengerConfig) (ops : MessageOps Msg)
    (m : Msg) (body : String) (aSub : String → Option GoError × List BrokerOp)
    (ctxErr : Option GoError) (hs : List (MessageHandler Msg)) (q0 : String)
    (b : Broker) (memo : List String) (am : adapterMessage)
    (hm : ops.marshal m = some body)
    (hval : subscribeQueueLoop hs "" = .ok q0) :
    dispatchEnvelope cfg ops m =
      .ok ⟨cfg.Environment ++ "." ++ ops.queue m, ops.identifier m, body⟩ ∧
    (messengerSubscribe cfg aSub ctxErr hs).adapterCalls =
      [cfg.Environment ++ "." ++ q0] ∧
    (pubsubDispatch b memo am).ops =
      [.publish am.Queue (encodePubsub ⟨⟨am.Identifier⟩, am.Body⟩)] ∧
    (∀ op ∈ (subscription b memo am.Queue am.Queue "").ops,
      ∀ n ∈ BrokerOp.names op, n = am.Queue) := by
  refine ⟨?_, ?_, ?_, ?_⟩
  · simp [dispatchEnvelope, hm, prefixQueue]
  · rw [messengerSubscribe_adapterCalls cfg aSub ctxErr hs q0 hval]
    rfl
  · unfold pubsubDispatch
    rw [topic_false]
    simp
  · intro op hop n hn
    rcases subscription_noDL_ops b memo am.Queue with h | h
    · rw [h] at hop
      exact topic_ops_names b memo am.Queue true op hop n hn
    · rw [h] at hop
      rcases List.mem_append.mp hop with h2 | h2
      · exact topic_ops_names b memo am.Queue true op h2 n hn
      · exact createSubscriptionIfNotExists_ops_names b am.Queue op h2 n hn

/-- Witness for C9 at the spec's example: environment `dev` and queue
`orders` resolve to broker queue `dev.orders` on both paths. -/
theorem messenger_namespacing_witness :
    dispatchEnvelope cfgDev opsOrders () = .ok ⟨"dev.orders", "order", "b"⟩ ∧
    (messengerSubscribe cfgDev adapterSubNone none [handlerU "order" "orders"]).adapterCalls =
      ["dev.orders"] := by
  have h := messenger_namespacing cfgDev opsOrders () "b" adapterSubNone none
    [handlerU "order" "orders"] "orders" brokerAllOk []
    ⟨"dev.orders", "order", "b"⟩ rfl rfl
  exact ⟨h.1, h.2.1⟩

/-- Claim C10 (confirmed). Empty queue name bypasses validation: when the
leading handlers all declare the empty queue and a later handler declares a
non-empty one, the validation loop succeeds with the later handler's queue
(the empty value is treated as unset and overwritten); and `Subscribe` with
zero handlers passes validation, invokes the adapter on the queue named
`Environment ++ "."`, with a dispatch closure that finds no handler for any
message. -/
theorem subscribe_empty_queue_bypass {Msg : Type} (cfg : MessengerConfig)
    (aSub : String → Option GoError × List BrokerOp) (ctxErr : Option GoError)
    (pre : List (MessageHandler Msg)) (h : MessageHandler Msg)
    (hpre : ∀ g ∈ pre, g.protoQueue = "")
    (_hq : h.protoQueue ≠ "") :
    subscribeQueueLoop (pre ++ [h]) "" = .ok h.protoQueue ∧
    (messengerSubscribe cfg aSub ctxErr ([] : List (MessageHandler Msg))).adapterCalls =
      [cfg.Environment ++ "."] ∧
    (∀ a : adapterMessage, handleMessage ([] : List (MessageHandler Msg)) a =
      (some (.noHandlerFound a.Identifier), [])) := by
  refine ⟨?_, ?_, ?_⟩
  · induction pre with
    | nil => simp [subscribeQueueLoop]
    | cons g rest ih =>
      have hg : g.protoQueue = "" := hpre g (by simp)
      simp only [List.cons_append, subscribeQueueLoop, if_pos rfl, hg]
      exact ih (fun g2 hg2 => hpre g2 (by simp [hg2]))
  · have hque : prefixQueue cfg.Environment "" = cfg.Environment ++ "." := by
      unfold prefixQueue
      rw [string_append_empty]
    unfold messengerSubscribe
    simp only [subscribeQueueLoop, hque]
    rcases herr : (aSub (cfg.Environment ++ ".")).1 with _ | e
    · simp [herr]
    · simp only [herr]
      by_cases hc : some e = ctxErr
      · simp [hc]
      · by_cases hr : cfg.RestartTimeout = 0 <;> simp [hc, hr]
  · intro a
    rfl

/-- Witness for C10: one leading empty-queue handler followed by an
`orders` handler passes validation with `orders`; the zero-handler call
subscribes to `dev.`; the empty dispatch closure rejects an envelope with
identifier `C`. -/
theorem subscribe_empty_queue_bypass_witness :
    subscribeQueueLoop ([handlerU "a" ""] ++ [handlerU "b" "orders"]) "" = .ok "orders" ∧
    (messengerSubscribe cfgDev adapterSubNone none
        ([] : List (MessageHandler Unit))).adapterCalls = ["dev."] ∧
    handleMessage ([] : List (MessageHandler Unit)) ⟨"dev.q", "C", "b"⟩ =
      (some (.noHandlerFound "C"), []) := by
  have h := subscribe_empty_queue_bypass cfgDev adapterSubNone none
    [handlerU "a" ""] (handlerU "b" "orders")
    (by intro g hg; simp [handlerU] at hg; subst hg; rfl) (by decide)
  exact ⟨h.1, h.2.1, h.2.2 ⟨"dev.q", "C", "b"⟩⟩
